import Mathlib

/-!
# Dispatcharr frontend: the real-time event client (`frontend/src/WebSocket.js`)

A shallow embedding of `WebsocketProvider`: the derivation of the socket
address, the `onmessage` handler, and the connection lifecycle that the
`useEffect` body, its cleanup and the `onopen` / `onclose` callbacks produce
when the browser delivers socket and timer events.

Conventions.
* JavaScript values are the ones `JSON.parse` can return, plus `undefined`
  (the result of reading a missing property).
* `JSON.parse` itself is a platform builtin: a frame is given to the handler
  as the outcome of `JSON.parse(event.data)`, either a thrown `SyntaxError`
  or a decoded value.
* Sockets are numbered in creation order; time is counted in milliseconds.
-/

namespace Dispatcharr

/-! ## JavaScript values -/

/-- A JavaScript number as far as this program observes it: whether
`ToBoolean` makes it false (it is `0` or `-0`; `JSON.parse` never yields
`NaN`) and the text `ToString` renders it to. -/
structure JSNumber where
  isZero : Bool
  text : String
deriving DecidableEq, Repr

mutual
/-- Values that `JSON.parse` returns, and `undefined`. -/
inductive JSValue where
  | undefined
  | null
  | bool (b : Bool)
  | num (n : JSNumber)
  | str (s : String)
  | arr (items : JSItems)
  | obj (props : JSProps)
deriving DecidableEq
/-- Elements of a decoded array, in index order. -/
inductive JSItems where
  | nil
  | cons (head : JSValue) (tail : JSItems)
deriving DecidableEq
/-- Own properties of a decoded object. -/
inductive JSProps where
  | nil
  | cons (key : String) (value : JSValue) (tail : JSProps)
deriving DecidableEq
end

/-- Exceptions the handler can run into. -/
inductive JSError where
  | SyntaxError
  | TypeError
deriving DecidableEq, Repr

/-- Own-property lookup in a decoded object. -/
def JSProps.find (name : String) : JSProps → Option JSValue
  | .nil => none
  | .cons k v rest => if k = name then some v else JSProps.find name rest

/-- Property read `v.name`, for a name that no builtin prototype defines
(the handler reads `type`, `message` and `success`): a `TypeError` on
`undefined` and `null`, the own property of an object, `undefined` otherwise. -/
def getProp (v : JSValue) (name : String) : Except JSError JSValue :=
  match v with
  | .undefined => .error .TypeError
  | .null => .error .TypeError
  | .obj props =>
      match props.find name with
      | some w => .ok w
      | none => .ok .undefined
  | _ => .ok .undefined

/-- Optional chaining `v?.name`. -/
def getPropOpt (v : JSValue) (name : String) : Except JSError JSValue :=
  match v with
  | .undefined => .ok .undefined
  | .null => .ok .undefined
  | w => getProp w name

/-- The abstract operation `ToBoolean`. -/
def toBoolean : JSValue → Bool
  | .undefined => false
  | .null => false
  | .bool b => b
  | .num n => !n.isZero
  | .str s => decide (s ≠ "")
  | .arr _ => true
  | .obj _ => true

mutual
/-- The abstract operation `ToString`, as a template literal applies it.
A decoded object has no callable own property, so one with an own
`toString` member has no usable `toString` and its inherited `valueOf`
returns the object itself: the conversion throws a `TypeError`. Every other
decoded object renders through `Object.prototype.toString`. -/
def toStringJS : JSValue → Except JSError String
  | .undefined => .ok "undefined"
  | .null => .ok "null"
  | .bool b => .ok (if b then "true" else "false")
  | .num n => .ok n.text
  | .str s => .ok s
  | .arr items => joinItems items
  | .obj props =>
      match props.find "toString" with
      | some _ => .error .TypeError
      | none => .ok "[object Object]"
/-- The result of `Array.prototype.join` with the default separator:
`undefined` and `null` elements render as the empty string. -/
def joinItems : JSItems → Except JSError String
  | .nil => .ok ""
  | .cons v rest =>
      let head : Except JSError String :=
        match v with
        | .undefined => .ok ""
        | .null => .ok ""
        | w => toStringJS w
      match rest with
      | .nil => head
      | r =>
          match head, joinItems r with
          | .ok a, .ok b => .ok (a ++ "," ++ b)
          | .error e, _ => .error e
          | .ok _, .error e => .error e
end

/-- Strict equality `v === s` with a string. -/
def strictEqStr (v : JSValue) (s : String) : Bool :=
  match v with
  | .str t => decide (t = s)
  | _ => false

/-! ## Address derivation (`WebSocket.js` l.23-32) -/

/-- What the effect reads from its surroundings. -/
structure PageContext where
  /-- The value of `window.location.host`. -/
  host : String
  /-- The value of `window.location.hostname`. -/
  hostname : String
  /-- The value of `window.location.protocol`. -/
  protocol : String
  /-- The value of `process.env.REACT_APP_ENV_MODE`, `none` when unset. -/
  envMode : Option String

/-- Whether `needle` occurs in the text as a run of consecutive characters. -/
def occursIn (needle : List Char) : List Char → Bool
  | [] => needle.isPrefixOf []
  | c :: cs => needle.isPrefixOf (c :: cs) || occursIn needle cs

/-- The test `protocol.match(/https/)`: the regular expression is the bare
literal, so it matches when `https` occurs anywhere in the string. -/
def matchHttps (protocol : String) : Bool :=
  occursIn "https".toList protocol.toList

/-- The string `wsUrl` handed to `new WebSocket` (l.23-32). -/
def deriveWsUrl (p : PageContext) : String :=
  let wsUrl := p.host ++ "/ws/"
  let wsUrl := if p.envMode = some "dev" then p.hostname ++ ":8001/ws/" else wsUrl
  if matchHttps p.protocol then "wss://" ++ wsUrl else "ws://" ++ wsUrl

/-! ## The message handler (`socket.onmessage`, l.50-64) -/

/-- Calls into the collaborators and the console, in program order. -/
inductive Effect where
  | fetchStreams
  | showAlert (text : JSValue) (severity : String)
  | consoleLog (text : String)
  | consoleError (text : String)
  /-- The promise of an async handler run was rejected with this error. -/
  | rejection (e : JSError)
deriving DecidableEq

/-- How the promise returned by the async handler settles. -/
inductive Settled where
  | fulfilled
  | rejected (e : JSError)
deriving DecidableEq, Repr

/-- One run of the handler: the calls it made, and how it ended. -/
structure HandlerRun where
  calls : List Effect
  promise : Settled
deriving DecidableEq

/-- The body of `socket.onmessage`; `parsed` is the outcome of
`JSON.parse(event.data)`. The collaborators `fetchStreams` and `showAlert`
are taken to return normally. -/
def onmessage (parsed : Except JSError JSValue) : HandlerRun :=
  match parsed with
  | .error e => ⟨[], .rejected e⟩
  | .ok event =>
    match getProp event "type" with
    | .error e => ⟨[], .rejected e⟩
    | .ok ty =>
      if strictEqStr ty "m3u_refresh" then
        match getProp event "message" with
        | .error e => ⟨[], .rejected e⟩
        | .ok m =>
          match getPropOpt m "success" with
          | .error e => ⟨[], .rejected e⟩
          | .ok success =>
            if toBoolean success then
              match getProp m "message" with
              | .error e => ⟨[.fetchStreams], .rejected e⟩
              | .ok text => ⟨[.fetchStreams, .showAlert text "success"], .fulfilled⟩
            else ⟨[], .fulfilled⟩
      else
        match toStringJS ty with
        | .error e => ⟨[], .rejected e⟩
        | .ok t => ⟨[.consoleError ("Unknown websocket event type: " ++ t)], .fulfilled⟩

/-! ## The connection lifecycle (`useEffect`, l.22-71, and the render, l.73) -/

/-- The constants of `WebSocket.readyState`. -/
inductive ReadyState where
  | CONNECTING
  | OPEN
  | CLOSING
  | CLOSED
deriving DecidableEq, Repr

/-- Which callbacks the program attached to a socket. The socket of the
effect body gets `onopen` (l.36), `onclose` (l.42) and `onmessage` (l.50);
the socket made by the timer callback gets `onopen` only (l.46). -/
inductive Wiring where
  | effectSocket
  | reconnectWs
deriving DecidableEq, Repr

/-- One `WebSocket` object. -/
structure Socket where
  url : String
  readyState : ReadyState
  wiring : Wiring
deriving DecidableEq, Repr

/-- A pending `setTimeout` callback of `onclose`; it captured `wsUrl`. -/
structure Timer where
  due : Nat
  wsUrl : String
deriving DecidableEq, Repr

/-- The provider together with the browser objects it created. -/
structure State where
  /-- Milliseconds elapsed. -/
  now : Nat
  /-- Every socket constructed so far, oldest first. -/
  sockets : List Socket
  /-- Pending reconnection timers. -/
  timers : List Timer
  /-- The React state cell `isReady`. -/
  isReady : Bool
  /-- The ref `ws.current`: the socket it holds, `none` for `null`. -/
  wsCurrent : Option Nat
  /-- The third entry of `ret` as of the latest render: the socket that the
  exposed `send` is bound to, `none` when the entry is `undefined`. -/
  exposedSend : Option Nat
  /-- The socket captured by the cleanup function of the effect that is in
  force, `none` when no effect is in force. -/
  cleanup : Option Nat
  /-- Calls to collaborators and console, oldest first. -/
  trace : List Effect
deriving DecidableEq

/-- Before the provider has mounted. -/
def State.init : State :=
  { now := 0, sockets := [], timers := [], isReady := false, wsCurrent := none,
    exposedSend := none, cleanup := none, trace := [] }

/-- A render of the provider recomputes `ret` (l.73). -/
def render (s : State) : State :=
  { s with exposedSend := s.wsCurrent }

/-- The state setter `setIsReady`: a changed value re-renders the provider. -/
def setIsReady (v : Bool) (s : State) : State :=
  if s.isReady = v then s else render { s with isReady := v }

/-- The constructor call `new WebSocket(url)`. -/
def newWebSocket (url : String) (w : Wiring) (s : State) : State :=
  { s with sockets := s.sockets ++ [{ url := url, readyState := .CONNECTING, wiring := w }] }

/-- The browser moves socket `k` to another ready state. -/
def setReadyState (k : Nat) (sk : Socket) (r : ReadyState) (s : State) : State :=
  { s with sockets := s.sockets.set k { sk with readyState := r } }

/-- The effect body (l.23-66). -/
def useEffectBody (p : PageContext) (s : State) : State :=
  let wsUrl := deriveWsUrl p
  let socket := s.sockets.length
  let s := newWebSocket wsUrl .effectSocket s
  { s with wsCurrent := some socket, cleanup := some socket }

/-- The callback `socket.onopen` (l.36-39). -/
def socketOnopen (s : State) : State :=
  setIsReady true { s with trace := s.trace ++ [.consoleLog "websocket connected"] }

/-- The callback `socket.onclose` (l.42-48). -/
def socketOnclose (wsUrl : String) (s : State) : State :=
  let s := setIsReady false s
  { s with timers := s.timers ++ [{ due := s.now + 3000, wsUrl := wsUrl }] }

/-- The timer callback (l.45-46). -/
def reconnectCallback (wsUrl : String) (s : State) : State :=
  newWebSocket wsUrl .reconnectWs s

/-- The callback `reconnectWs.onopen` (l.46). -/
def reconnectWsOnopen (s : State) : State :=
  setIsReady true s

/-- The call `socket.close()`: a socket that is connecting or open starts
closing, one that is closing or closed is left alone. -/
def socketClose (k : Nat) (s : State) : State :=
  match s.sockets[k]? with
  | none => s
  | some sk =>
      if sk.readyState = .CONNECTING ∨ sk.readyState = .OPEN then
        setReadyState k sk .CLOSING s
      else s

/-- The cleanup function (l.68-70). -/
def effectCleanup (s : State) : State :=
  match s.cleanup with
  | none => s
  | some socket => socketClose socket { s with cleanup := none }

/-- Appends one handler run to the trace. -/
def record (r : HandlerRun) (s : State) : State :=
  match r.promise with
  | .fulfilled => { s with trace := s.trace ++ r.calls }
  | .rejected e => { s with trace := s.trace ++ r.calls ++ [.rejection e] }

/-- What React, the network and the clock can do to the provider. -/
inductive Event where
  /-- React runs the effect (mount). -/
  | effectRun (p : PageContext)
  /-- React runs the cleanup of the effect (unmount). -/
  | effectCleanup
  /-- React renders the provider again. -/
  | rerender
  /-- Socket `k` finishes its opening handshake. -/
  | netOpen (k : Nat)
  /-- Socket `k` reaches `CLOSED`: a failed connect, a lost or peer-closed
  connection, or the end of the closing handshake begun by `close()`. -/
  | netClose (k : Nat)
  /-- A frame arrives on socket `k`. -/
  | netMessage (k : Nat) (parsed : Except JSError JSValue)
  /-- Time passes. -/
  | advance (ms : Nat)
  /-- The browser runs pending timer `i`. -/
  | timerFire (i : Nat)

/-- One step of the lifecycle. An event the browser would not deliver in
the state at hand leaves it unchanged. -/
def step (s : State) : Event → State
  | .effectRun p =>
      match s.cleanup with
      | some _ => s
      | none => useEffectBody p s
  | .effectCleanup => effectCleanup s
  | .rerender => render s
  | .netOpen k =>
      match s.sockets[k]? with
      | none => s
      | some sk =>
          if sk.readyState = .CONNECTING then
            let s := setReadyState k sk .OPEN s
            match sk.wiring with
            | .effectSocket => socketOnopen s
            | .reconnectWs => reconnectWsOnopen s
          else s
  | .netClose k =>
      match s.sockets[k]? with
      | none => s
      | some sk =>
          if sk.readyState = .CLOSED then s
          else
            let s := setReadyState k sk .CLOSED s
            match sk.wiring with
            | .effectSocket => socketOnclose sk.url s
            | .reconnectWs => s
  | .netMessage k parsed =>
      match s.sockets[k]? with
      | none => s
      | some sk =>
          if sk.readyState = .OPEN then
            match sk.wiring with
            | .effectSocket => record (onmessage parsed) s
            | .reconnectWs => s
          else s
  | .advance ms => { s with now := s.now + ms }
  | .timerFire i =>
      match s.timers[i]? with
      | none => s
      | some t =>
          if t.due ≤ s.now then
            reconnectCallback t.wsUrl { s with timers := s.timers.eraseIdx i }
          else s

/-- The state after a sequence of events. -/
def run (s : State) (evs : List Event) : State :=
  evs.foldl step s

/-- A socket that is connecting or open. -/
def Socket.live (sk : Socket) : Bool :=
  decide (sk.readyState = .CONNECTING) || decide (sk.readyState = .OPEN)

/-- How many sockets are connecting or open. -/
def State.liveCount (s : State) : Nat :=
  (s.sockets.filter Socket.live).length

/-- Whether every socket constructed so far has reached `CLOSED`. -/
def State.allClosed (s : State) : Bool :=
  s.sockets.all (fun sk => decide (sk.readyState = .CLOSED))

/-- How many `effectRun` events a sequence holds. -/
def countEffectRuns : List Event → Nat
  | [] => 0
  | .effectRun _ :: evs => countEffectRuns evs + 1
  | _ :: evs => countEffectRuns evs

/-- The sockets and timers that one mount of the provider can lead to: the
socket of the effect alone, not yet closed and with no timer pending; that
socket closed, with its one reconnection timer pending; or that socket
closed, followed by the socket the timer constructed, with no timer pending. -/
def SingleMountShape (sockets : List Socket) (timers : List Timer) : Prop :=
  ∃ a : Socket, a.wiring = .effectSocket ∧
    ((sockets = [a] ∧ a.readyState ≠ .CLOSED ∧ timers = []) ∨
     (sockets = [a] ∧ a.readyState = .CLOSED ∧ ∃ t, timers = [t]) ∨
     (∃ b : Socket, sockets = [a, b] ∧ a.readyState = .CLOSED ∧
        b.wiring = .reconnectWs ∧ timers = []))

/-- The provider has not mounted yet. -/
def Unmounted (s : State) : Prop :=
  s.sockets = [] ∧ s.timers = [] ∧ s.cleanup = none

/-! ## Theorems: address derivation -/

/-- The scan `occursIn` decides whether the needle is an infix. -/
theorem occursIn_iff_infix (needle : List Char) (l : List Char) :
    occursIn needle l = true ↔ needle <:+: l := by
  induction l with
  | nil =>
      simp [occursIn]
  | cons c cs ih =>
      simp [occursIn, List.infix_cons_iff, ih]

/-- The protocol test succeeds exactly when `https` occurs in the string. -/
theorem matchHttps_iff (protocol : String) :
    matchHttps protocol = true ↔ "https".toList <:+: protocol.toList := by
  unfold matchHttps
  exact occursIn_iff_infix _ _

/-- C1. For every host, hostname, protocol string and environment mode the
address handed to `new WebSocket` is scheme, `://`, authority, `/ws/`: the
scheme is `wss` when `https` occurs in the page protocol (as it does in
`https:` and does not in `http:`) and `ws` otherwise; the authority is the
page host, unless the mode is `dev`, when it is the hostname followed by
`:8001`. -/
theorem wsUrl_derivation (p : PageContext) :
    deriveWsUrl p =
        (if "https".toList <:+: p.protocol.toList then "wss" else "ws") ++ "://" ++
        (if p.envMode = some "dev" then p.hostname ++ ":8001" else p.host) ++ "/ws/" ∧
      "https".toList <:+: "https:".toList ∧ ¬ "https".toList <:+: "http:".toList := by
  refine ⟨?_, by decide, by decide⟩
  unfold deriveWsUrl
  simp only [← matchHttps_iff]
  by_cases h : matchHttps p.protocol = true <;> by_cases m : p.envMode = some "dev" <;>
    simp [h, m, String.append_assoc]

/-! ## Theorems: the message handler -/

/-- The `m3u_refresh` branch, once `event.type` and `event.message` are read. -/
theorem onmessage_refresh (event m : JSValue)
    (hty : getProp event "type" = .ok (.str "m3u_refresh"))
    (hm : getProp event "message" = .ok m) :
    onmessage (.ok event) =
      match getPropOpt m "success" with
      | .error e => ⟨[], .rejected e⟩
      | .ok success =>
        if toBoolean success then
          match getProp m "message" with
          | .error e => ⟨[.fetchStreams], .rejected e⟩
          | .ok text => ⟨[.fetchStreams, .showAlert text "success"], .fulfilled⟩
        else ⟨[], .fulfilled⟩ := by
  simp only [onmessage, hty, hm, strictEqStr, decide_True, if_true]

/-- Reading a property of an object never throws. -/
theorem getProp_obj_ok (props : JSProps) (name : String) :
    ∃ w, getProp (.obj props) name = .ok w := by
  cases hf : props.find name with
  | none => exact ⟨.undefined, by simp only [getProp, hf]⟩
  | some w => exact ⟨w, by simp only [getProp, hf]⟩

/-- C2. For every decoded event whose `type` is `m3u_refresh`: when
`event.message.success` is `true` the handler calls `fetchStreams` once and
then `showAlert` once, with `event.message.message` and `'success'`, and
nothing else; when `event.message` is `null` or absent, or its `success` is
`false` or absent, the handler makes no call at all. In each case the run
ends normally. -/
theorem m3u_refresh_dispatch (event : JSValue)
    (hty : getProp event "type" = .ok (.str "m3u_refresh")) :
    (∀ msg, getProp event "message" = .ok msg →
        getProp msg "success" = .ok (.bool true) →
        ∃ text, getProp msg "message" = .ok text ∧
          onmessage (.ok event) =
            ⟨[.fetchStreams, .showAlert text "success"], .fulfilled⟩) ∧
    ((getProp event "message" = .ok .null ∨ getProp event "message" = .ok .undefined) →
        onmessage (.ok event) = ⟨[], .fulfilled⟩) ∧
    (∀ msg, getProp event "message" = .ok msg →
        (getProp msg "success" = .ok (.bool false) ∨
          getProp msg "success" = .ok .undefined) →
        onmessage (.ok event) = ⟨[], .fulfilled⟩) := by
  refine ⟨?_, ?_, ?_⟩
  · intro msg hm hs
    rw [onmessage_refresh event msg hty hm]
    cases msg <;> try (simp [getProp] at hs; done)
    case obj props =>
      obtain ⟨w, hw⟩ := getProp_obj_ok props "message"
      refine ⟨w, hw, ?_⟩
      simp only [getPropOpt, hs, hw, toBoolean, if_true]
  · rintro (hm | hm) <;> rw [onmessage_refresh event _ hty hm] <;>
      simp [getPropOpt, toBoolean]
  · intro msg hm hs
    rw [onmessage_refresh event msg hty hm]
    cases msg <;> try (simp [getPropOpt, getProp, toBoolean]; done)
    case obj props =>
      rcases hs with hs | hs <;> simp [getPropOpt, hs, toBoolean]

/-- Scenarios B and C of the specification, through `m3u_refresh_dispatch`. -/
theorem m3u_refresh_dispatch_witness :
    onmessage (.ok (.obj (.cons "type" (.str "m3u_refresh") (.cons "message"
        (.obj (.cons "success" (.bool true) (.cons "message" (.str "Playlist updated") .nil)))
        .nil)))) =
      ⟨[.fetchStreams, .showAlert (.str "Playlist updated") "success"], .fulfilled⟩ ∧
    onmessage (.ok (.obj (.cons "type" (.str "m3u_refresh") (.cons "message"
        (.obj (.cons "success" (.bool false) .nil)) .nil)))) = ⟨[], .fulfilled⟩ := by
  obtain ⟨text, ht, h1⟩ := (m3u_refresh_dispatch (.obj (.cons "type" (.str "m3u_refresh")
        (.cons "message" (.obj (.cons "success" (.bool true)
          (.cons "message" (.str "Playlist updated") .nil))) .nil))) rfl).1 _ rfl rfl
  have h2 := (m3u_refresh_dispatch (.obj (.cons "type" (.str "m3u_refresh") (.cons "message"
        (.obj (.cons "success" (.bool false) .nil)) .nil))) rfl).2.2 _ rfl (Or.inl rfl)
  have h3 : getProp (.obj (.cons "success" (.bool true)
      (.cons "message" (.str "Playlist updated") .nil))) "message" =
        .ok (.str "Playlist updated") := rfl
  rw [h3] at ht
  injection ht with ht
  subst ht
  exact ⟨h1, h2⟩


/-- A frame that reaches an open socket wired by the effect runs the handler
once and appends that run to the trace. -/
theorem step_netMessage_deliver (s : State) (k : Nat) (sk : Socket)
    (parsed : Except JSError JSValue) (hk : s.sockets[k]? = some sk)
    (hopen : sk.readyState = .OPEN) (hw : sk.wiring = .effectSocket) :
    step s (.netMessage k parsed) = record (onmessage parsed) s := by
  simp [step, hk, hopen, hw]

/-- The default branch, once `event.type` is read and is not `m3u_refresh`. -/
theorem onmessage_default (event ty : JSValue)
    (hty : getProp event "type" = .ok ty)
    (hne : strictEqStr ty "m3u_refresh" = false) :
    onmessage (.ok event) =
      match toStringJS ty with
      | .error e => ⟨[], .rejected e⟩
      | .ok t => ⟨[.consoleError ("Unknown websocket event type: " ++ t)], .fulfilled⟩ := by
  simp only [onmessage, hty, hne, Bool.false_eq_true, if_false]

/-- C3 as stated fails: the frame `{"type":{"toString":null}}` is well-formed
and decodes to an object whose `type` is not a recognised one, yet the
handler run ends in a `TypeError` (the template literal cannot convert the
type to a string) and no diagnostic is emitted. -/
theorem unknown_type_unprintable_rejects :
    strictEqStr (.obj (.cons "toString" .null .nil)) "m3u_refresh" = false ∧
    onmessage (.ok (.obj (.cons "type" (.obj (.cons "toString" .null .nil)) .nil))) =
      ⟨[], .rejected .TypeError⟩ := by
  decide

/-- C3, amended. For every frame that decodes to an object whose `type` is
not `m3u_refresh` and converts to a string `text`, delivered on the open
socket of the effect: the handler run ends normally and its only call is one
`console.error` of `Unknown websocket event type: ` followed by `text`; the
state after the frame differs from the state before only by that entry of
the trace, so readiness and every connection are unchanged. A type that is
absent, `null`, a boolean, a number or a string always converts. -/
theorem unknown_type_logged (s : State) (k : Nat) (sk : Socket) (props : JSProps)
    (ty : JSValue) (text : String)
    (hk : s.sockets[k]? = some sk) (hopen : sk.readyState = .OPEN)
    (hw : sk.wiring = .effectSocket)
    (hty : getProp (.obj props) "type" = .ok ty)
    (hne : strictEqStr ty "m3u_refresh" = false)
    (htext : toStringJS ty = .ok text) :
    onmessage (.ok (.obj props)) =
        ⟨[.consoleError ("Unknown websocket event type: " ++ text)], .fulfilled⟩ ∧
      step s (.netMessage k (.ok (.obj props))) =
        { s with trace := s.trace ++
            [.consoleError ("Unknown websocket event type: " ++ text)] } ∧
      (props.find "type" = none → text = "undefined") ∧
      (∀ v : JSValue, (v = .undefined ∨ v = .null ∨ (∃ b, v = .bool b) ∨
          (∃ n, v = .num n) ∨ (∃ t, v = .str t)) → ∃ t, toStringJS v = .ok t) := by
  have hrun : onmessage (.ok (.obj props)) =
      ⟨[.consoleError ("Unknown websocket event type: " ++ text)], .fulfilled⟩ := by
    rw [onmessage_default _ ty hty hne, htext]
  refine ⟨hrun, ?_, ?_, ?_⟩
  · rw [step_netMessage_deliver s k sk _ hk hopen hw, hrun]
    rfl
  · intro hnone
    simp only [getProp, hnone] at hty
    injection hty with hty
    subst hty
    simp only [toStringJS] at htext
    injection htext with htext
    exact htext.symm
  · rintro v (h | h | ⟨b, h⟩ | ⟨n, h⟩ | ⟨t, h⟩) <;> subst h <;> exact ⟨_, rfl⟩

/-- Scenario D of the specification, through `unknown_type_logged`. -/
theorem unknown_type_logged_witness :
    onmessage (.ok (.obj (.cons "type" (.str "unknown_event") .nil))) =
      ⟨[.consoleError "Unknown websocket event type: unknown_event"], .fulfilled⟩ :=
  (unknown_type_logged
    (run State.init [.effectRun ⟨"example.com:9191", "example.com", "https:", none⟩,
      .netOpen 0])
    0 { url := "wss://example.com:9191/ws/", readyState := .OPEN, wiring := .effectSocket }
    (.cons "type" (.str "unknown_event") .nil) (.str "unknown_event") "unknown_event"
    (by decide) rfl rfl rfl rfl rfl).1

/-- C4 as stated fails: for the frame `null`, which is JSON that decodes to
no object, the handler run ends in a `TypeError` (reading `type` of `null`),
and for a frame that is not JSON it ends in the `SyntaxError` of
`JSON.parse`; in both cases the handler has logged nothing. -/
theorem malformed_frame_rejects :
    onmessage (.ok .null) = ⟨[], .rejected .TypeError⟩ ∧
    onmessage (.error .SyntaxError) = ⟨[], .rejected .SyntaxError⟩ := by
  decide

/-- C4, amended. For every malformed frame delivered on the open socket of
the effect, neither `fetchStreams` nor `showAlert` is called and the state,
the trace apart, is unchanged (readiness kept, no socket closed). The run
itself ends in the error of `JSON.parse` when the data is not JSON and in a
`TypeError` when it decodes to `null`, both without a diagnostic from the
handler; when it decodes to any other value that carries no `type`, the run
ends normally after one `console.error` naming the type `undefined`. -/
theorem malformed_frame_dropped (s : State) (k : Nat) (sk : Socket)
    (hk : s.sockets[k]? = some sk) (hopen : sk.readyState = .OPEN)
    (hw : sk.wiring = .effectSocket) :
    (∀ e : JSError,
        onmessage (.error e) = ⟨[], .rejected e⟩ ∧
        step s (.netMessage k (.error e)) = { s with trace := s.trace ++ [.rejection e] }) ∧
    (onmessage (.ok .null) = ⟨[], .rejected .TypeError⟩ ∧
        step s (.netMessage k (.ok .null)) =
          { s with trace := s.trace ++ [.rejection .TypeError] }) ∧
    (∀ v : JSValue, getProp v "type" = .ok .undefined →
        onmessage (.ok v) =
          ⟨[.consoleError "Unknown websocket event type: undefined"], .fulfilled⟩ ∧
        step s (.netMessage k (.ok v)) =
          { s with trace := s.trace ++
              [.consoleError "Unknown websocket event type: undefined"] }) := by
  refine ⟨fun e => ⟨rfl, ?_⟩, ⟨rfl, ?_⟩, fun v hv => ?_⟩
  · rw [step_netMessage_deliver s k sk _ hk hopen hw]
    simp [onmessage, record]
  · rw [step_netMessage_deliver s k sk _ hk hopen hw]
    simp [onmessage, record, getProp]
  · have hrun : onmessage (.ok v) =
        ⟨[.consoleError "Unknown websocket event type: undefined"], .fulfilled⟩ := by
      rw [onmessage_default v .undefined hv rfl]
      rfl
    refine ⟨hrun, ?_⟩
    rw [step_netMessage_deliver s k sk _ hk hopen hw, hrun]
    rfl

/-- The frames `{}` and `[]`, through `malformed_frame_dropped`. -/
theorem malformed_frame_dropped_witness :
    onmessage (.ok (.obj .nil)) =
        ⟨[.consoleError "Unknown websocket event type: undefined"], .fulfilled⟩ ∧
      onmessage (.ok (.arr .nil)) =
        ⟨[.consoleError "Unknown websocket event type: undefined"], .fulfilled⟩ :=
  ⟨((malformed_frame_dropped
      (run State.init [.effectRun ⟨"example.com:9191", "example.com", "https:", none⟩,
        .netOpen 0])
      0 { url := "wss://example.com:9191/ws/", readyState := .OPEN, wiring := .effectSocket }
      (by decide) rfl rfl).2.2 (.obj .nil) rfl).1,
   ((malformed_frame_dropped
      (run State.init [.effectRun ⟨"example.com:9191", "example.com", "https:", none⟩,
        .netOpen 0])
      0 { url := "wss://example.com:9191/ws/", readyState := .OPEN, wiring := .effectSocket }
      (by decide) rfl rfl).2.2 (.arr .nil) rfl).1⟩

/-! ## Theorems: the connection lifecycle -/

/-- The setter leaves the sockets alone. -/
@[simp] theorem setIsReady_sockets (v : Bool) (s : State) :
    (setIsReady v s).sockets = s.sockets := by
  unfold setIsReady render; split <;> rfl

/-- The setter leaves the timers alone. -/
@[simp] theorem setIsReady_timers (v : Bool) (s : State) :
    (setIsReady v s).timers = s.timers := by
  unfold setIsReady render; split <;> rfl

/-- The setter leaves the clock alone. -/
@[simp] theorem setIsReady_now (v : Bool) (s : State) :
    (setIsReady v s).now = s.now := by
  unfold setIsReady render; split <;> rfl

/-- The setter leaves the pending cleanup alone. -/
@[simp] theorem setIsReady_cleanup (v : Bool) (s : State) :
    (setIsReady v s).cleanup = s.cleanup := by
  unfold setIsReady render; split <;> rfl

/-- The setter leaves the ref alone. -/
@[simp] theorem setIsReady_wsCurrent (v : Bool) (s : State) :
    (setIsReady v s).wsCurrent = s.wsCurrent := by
  unfold setIsReady render; split <;> rfl

/-- After the setter the state cell holds the value set. -/
@[simp] theorem setIsReady_isReady (v : Bool) (s : State) :
    (setIsReady v s).isReady = v := by
  unfold setIsReady render; split
  · assumption
  · rfl

/-- C5. When a socket wired by the effect closes while it is open or still
connecting, `isReady` is false right after the close, no socket has been
constructed yet, and exactly one timer has been added, due 3000 ms later and
holding the address of the closed socket. That timer cannot run while fewer
than 3000 ms have passed; run once 3000 ms or more have passed, it
constructs exactly one socket, to that same address, and is gone. The socket
that a mount establishes is such a socket, and its address is the derived
one. -/
theorem unexpected_close_reconnects_once (s : State) (k : Nat) (sk : Socket)
    (hk : s.sockets[k]? = some sk) (hw : sk.wiring = .effectSocket)
    (hlive : sk.readyState = .OPEN ∨ sk.readyState = .CONNECTING) :
    (step s (.netClose k)).isReady = false ∧
    (step s (.netClose k)).sockets = s.sockets.set k { sk with readyState := .CLOSED } ∧
    (step s (.netClose k)).timers = s.timers ++ [{ due := s.now + 3000, wsUrl := sk.url }] ∧
    (∀ d, d < 3000 →
        step (step (step s (.netClose k)) (.advance d)) (.timerFire s.timers.length) =
          step (step s (.netClose k)) (.advance d)) ∧
    (∀ d, 3000 ≤ d →
        (step (step (step s (.netClose k)) (.advance d)) (.timerFire s.timers.length)).sockets
            = s.sockets.set k { sk with readyState := .CLOSED } ++
                [{ url := sk.url, readyState := .CONNECTING, wiring := .reconnectWs }] ∧
        (step (step (step s (.netClose k)) (.advance d)) (.timerFire s.timers.length)).timers
            = s.timers) ∧
    (∀ p : PageContext, (run State.init [.effectRun p]).sockets =
        [{ url := deriveWsUrl p, readyState := .CONNECTING, wiring := .effectSocket }]) := by
  have hne : sk.readyState ≠ .CLOSED := by
    rcases hlive with h | h <;> rw [h] <;> decide
  have hstep : step s (.netClose k) =
      socketOnclose sk.url (setReadyState k sk .CLOSED s) := by
    simp [step, hk, hne, hw]
  have h1 : (step s (.netClose k)).isReady = false := by
    rw [hstep]; simp [socketOnclose]
  have h2 : (step s (.netClose k)).sockets =
      s.sockets.set k { sk with readyState := .CLOSED } := by
    rw [hstep]; simp [socketOnclose, setReadyState]
  have h3 : (step s (.netClose k)).timers =
      s.timers ++ [{ due := s.now + 3000, wsUrl := sk.url }] := by
    rw [hstep]; simp [socketOnclose, setReadyState]
  have h4 : (step s (.netClose k)).now = s.now := by
    rw [hstep]; simp [socketOnclose, setReadyState]
  refine ⟨h1, h2, h3, ?_, ?_, fun p => rfl⟩
  · intro d hd
    generalize step s (.netClose k) = s1 at h1 h2 h3 h4
    have : ¬ (s.now + 3000 ≤ s.now + d) := by omega
    simp [step, h3, h4, this]
  · intro d hd
    generalize step s (.netClose k) = s1 at h1 h2 h3 h4
    have : s.now + 3000 ≤ s.now + d := by omega
    simp [step, h3, h4, h2, this, reconnectCallback, newWebSocket,
      List.eraseIdx_append_of_length_le (Nat.le_refl s.timers.length)]

/-- Scenario E of the specification, through `unexpected_close_reconnects_once`:
the page `https://example.com:9191` mounts the provider, the socket opens
and then closes. -/
theorem unexpected_close_reconnects_once_witness :
    (run State.init [.effectRun ⟨"example.com:9191", "example.com", "https:", none⟩,
        .netOpen 0, .netClose 0]).isReady = false ∧
    (run State.init [.effectRun ⟨"example.com:9191", "example.com", "https:", none⟩,
        .netOpen 0, .netClose 0, .advance 2999, .timerFire 0]).sockets =
      [{ url := "wss://example.com:9191/ws/", readyState := .CLOSED, wiring := .effectSocket }] ∧
    (run State.init [.effectRun ⟨"example.com:9191", "example.com", "https:", none⟩,
        .netOpen 0, .netClose 0, .advance 3000, .timerFire 0]).sockets =
      [{ url := "wss://example.com:9191/ws/", readyState := .CLOSED, wiring := .effectSocket },
       { url := "wss://example.com:9191/ws/", readyState := .CONNECTING,
         wiring := .reconnectWs }] := by
  have h := unexpected_close_reconnects_once
    (run State.init [.effectRun ⟨"example.com:9191", "example.com", "https:", none⟩,
      .netOpen 0])
    0 { url := "wss://example.com:9191/ws/", readyState := .OPEN, wiring := .effectSocket }
    (by decide) rfl (Or.inl rfl)
  refine ⟨h.1, ?_, (h.2.2.2.2.1 3000 (Nat.le_refl _)).1⟩
  have h5 := h.2.2.2.1 2999 (by decide)
  have h6 := h.2.1
  exact (congrArg State.sockets h5).trans h6


/-- A socket of a state whose sockets are all closed is closed. -/
theorem closed_of_allClosed (s : State) (k : Nat) (sk : Socket)
    (hc : s.allClosed = true) (hk : s.sockets[k]? = some sk) :
    sk.readyState = .CLOSED := by
  have hmem : sk ∈ s.sockets := List.getElem?_mem hk
  have := (List.all_eq_true.mp hc) sk hmem
  simpa using this

/-- With every socket closed and no timer pending, no event other than a
run of the effect changes the sockets or schedules a timer. -/
theorem step_quiescent (s : State) (e : Event) (ht : s.timers = [])
    (hc : s.allClosed = true) (he : countEffectRuns [e] = 0) :
    (step s e).sockets = s.sockets ∧ (step s e).timers = [] := by
  cases e with
  | effectRun p => simp [countEffectRuns] at he
  | effectCleanup =>
      cases hcl : s.cleanup with
      | none => simp [step, effectCleanup, hcl, ht]
      | some k =>
          cases hk : s.sockets[k]? with
          | none => simp [step, effectCleanup, socketClose, hcl, hk, ht]
          | some sk =>
              have := closed_of_allClosed s k sk hc hk
              simp [step, effectCleanup, socketClose, hcl, hk, this, ht]
  | rerender => exact ⟨rfl, ht⟩
  | netOpen k =>
      cases hk : s.sockets[k]? with
      | none => simp [step, hk, ht]
      | some sk =>
          have := closed_of_allClosed s k sk hc hk
          simp [step, hk, this, ht]
  | netClose k =>
      cases hk : s.sockets[k]? with
      | none => simp [step, hk, ht]
      | some sk =>
          have := closed_of_allClosed s k sk hc hk
          simp [step, hk, this, ht]
  | netMessage k parsed =>
      cases hk : s.sockets[k]? with
      | none => simp [step, hk, ht]
      | some sk =>
          have := closed_of_allClosed s k sk hc hk
          simp [step, hk, this, ht]
  | advance ms => exact ⟨rfl, ht⟩
  | timerFire i => simp [step, ht]

/-- With every socket closed and no timer pending, no sequence of events
without a run of the effect ever constructs a socket. -/
theorem run_quiescent (evs : List Event) :
    ∀ s : State, s.timers = [] → s.allClosed = true → countEffectRuns evs = 0 →
      (run s evs).sockets = s.sockets ∧ (run s evs).timers = [] := by
  induction evs with
  | nil => intro s ht _ _; exact ⟨rfl, ht⟩
  | cons e evs ih =>
      intro s ht hc he
      have he1 : countEffectRuns [e] = 0 := by
        cases e <;> simp_all [countEffectRuns]
      have he2 : countEffectRuns evs = 0 := by
        cases e <;> simp_all [countEffectRuns]
      obtain ⟨h1, h2⟩ := step_quiescent s e ht hc he1
      have hc2 : (step s e).allClosed = true := by
        unfold State.allClosed; rw [h1]; exact hc
      obtain ⟨h3, h4⟩ := ih (step s e) h2 hc2 he2
      exact ⟨h3.trans h1, h4⟩

/-- C6, the code at the failing input. The provider mounts, its socket opens
and closes, the timer runs after 3000 ms, the socket it constructs opens and
closes in turn. After this second closure both sockets are closed and no
timer is pending, and whatever events follow (short of a new mount) no
socket is ever constructed again: two closures, one reconnection attempt.
The same holds when the second socket fails before it opens. -/
theorem reconnect_socket_close_not_retried (p : PageContext) :
    (run State.init [.effectRun p, .netOpen 0, .netClose 0, .advance 3000, .timerFire 0,
        .netOpen 1, .netClose 1]).sockets =
      [{ url := deriveWsUrl p, readyState := .CLOSED, wiring := .effectSocket },
       { url := deriveWsUrl p, readyState := .CLOSED, wiring := .reconnectWs }] ∧
    (run State.init [.effectRun p, .netOpen 0, .netClose 0, .advance 3000, .timerFire 0,
        .netOpen 1, .netClose 1]).timers = [] ∧
    (∀ evs : List Event, countEffectRuns evs = 0 →
      (run (run State.init [.effectRun p, .netOpen 0, .netClose 0, .advance 3000,
          .timerFire 0, .netOpen 1, .netClose 1]) evs).sockets.length = 2) ∧
    (∀ evs : List Event, countEffectRuns evs = 0 →
      (run (run State.init [.effectRun p, .netOpen 0, .netClose 0, .advance 3000,
          .timerFire 0, .netClose 1]) evs).sockets.length = 2) := by
  have h1 : run State.init [.effectRun p, .netOpen 0, .netClose 0, .advance 3000,
      .timerFire 0, .netOpen 1, .netClose 1] =
      { now := 3000
        sockets := [{ url := deriveWsUrl p, readyState := .CLOSED, wiring := .effectSocket },
                    { url := deriveWsUrl p, readyState := .CLOSED, wiring := .reconnectWs }]
        timers := [], isReady := true, wsCurrent := some 0, exposedSend := some 0,
        cleanup := some 0, trace := [.consoleLog "websocket connected"] } := by
    simp [run, step, State.init, useEffectBody, newWebSocket, setReadyState, socketOnopen,
      socketOnclose, reconnectWsOnopen, setIsReady, render, reconnectCallback]
  have h2 : run State.init [.effectRun p, .netOpen 0, .netClose 0, .advance 3000,
      .timerFire 0, .netClose 1] =
      { now := 3000
        sockets := [{ url := deriveWsUrl p, readyState := .CLOSED, wiring := .effectSocket },
                    { url := deriveWsUrl p, readyState := .CLOSED, wiring := .reconnectWs }]
        timers := [], isReady := false, wsCurrent := some 0, exposedSend := some 0,
        cleanup := some 0, trace := [.consoleLog "websocket connected"] } := by
    simp [run, step, State.init, useEffectBody, newWebSocket, setReadyState, socketOnopen,
      socketOnclose, reconnectWsOnopen, setIsReady, render, reconnectCallback]
  rw [h1, h2]
  refine ⟨rfl, rfl, ?_, ?_⟩
  · intro evs he
    exact congrArg List.length (run_quiescent evs _ rfl (by simp [State.allClosed]) he).1
  · intro evs he
    exact congrArg List.length (run_quiescent evs _ rfl (by simp [State.allClosed]) he).1

/-- C7, the code at the failing inputs. First: the provider mounts, its
socket opens, the cleanup runs and the closing handshake ends; 3000 ms later
the timer scheduled by that close runs and constructs a socket, which then
opens and sets `isReady`. Second: the socket closes on its own, the cleanup
runs while the timer is pending, and the timer still constructs a socket. -/
theorem teardown_still_reconnects (p : PageContext) :
    (run State.init [.effectRun p, .netOpen 0, .effectCleanup, .netClose 0]).timers =
      [{ due := 3000, wsUrl := deriveWsUrl p }] ∧
    (run State.init [.effectRun p, .netOpen 0, .effectCleanup, .netClose 0, .advance 3000,
        .timerFire 0, .netOpen 1]).sockets =
      [{ url := deriveWsUrl p, readyState := .CLOSED, wiring := .effectSocket },
       { url := deriveWsUrl p, readyState := .OPEN, wiring := .reconnectWs }] ∧
    (run State.init [.effectRun p, .netOpen 0, .effectCleanup, .netClose 0, .advance 3000,
        .timerFire 0, .netOpen 1]).isReady = true ∧
    (run State.init [.effectRun p, .netOpen 0, .netClose 0, .effectCleanup]).timers =
      [{ due := 3000, wsUrl := deriveWsUrl p }] ∧
    (run State.init [.effectRun p, .netOpen 0, .netClose 0, .effectCleanup, .advance 3000,
        .timerFire 0, .netOpen 1]).sockets =
      [{ url := deriveWsUrl p, readyState := .CLOSED, wiring := .effectSocket },
       { url := deriveWsUrl p, readyState := .OPEN, wiring := .reconnectWs }] := by
  simp [run, step, State.init, useEffectBody, newWebSocket, setReadyState, socketOnopen,
    socketOnclose, reconnectWsOnopen, setIsReady, render, reconnectCallback, effectCleanup,
    socketClose]

/-- C8, the code at the failing input. The provider mounts, its socket opens
and closes, the timer runs and the socket it constructs opens. Every frame
that then arrives on this open socket leaves the state as it is: the handler
is not run, so nothing is fetched, shown or logged. -/
theorem reconnected_socket_drops_frames (p : PageContext)
    (parsed : Except JSError JSValue) :
    (run State.init [.effectRun p, .netOpen 0, .netClose 0, .advance 3000, .timerFire 0,
        .netOpen 1]).sockets[1]? =
      some { url := deriveWsUrl p, readyState := .OPEN, wiring := .reconnectWs } ∧
    step (run State.init [.effectRun p, .netOpen 0, .netClose 0, .advance 3000, .timerFire 0,
        .netOpen 1]) (.netMessage 1 parsed) =
      run State.init [.effectRun p, .netOpen 0, .netClose 0, .advance 3000, .timerFire 0,
        .netOpen 1] ∧
    (run State.init [.effectRun p, .netOpen 0, .netClose 0, .advance 3000, .timerFire 0,
        .netOpen 1, .netMessage 1 parsed]).trace = [.consoleLog "websocket connected"] := by
  simp [run, step, State.init, useEffectBody, newWebSocket, setReadyState, socketOnopen,
    socketOnclose, reconnectWsOnopen, setIsReady, render, reconnectCallback, effectCleanup,
    socketClose]

/-- C9, the code at the failing input. The provider mounts, its socket opens
and closes, the timer runs and the socket it constructs opens. The provider
then reports `isReady` and exposes a `send` bound to socket 0, which is
closed, while the open connection is socket 1; `ws.current` still holds
socket 0. Already after the closure alone the exposed `send` is bound to
the closed socket. -/
theorem exposed_send_is_stale (p : PageContext) :
    (run State.init [.effectRun p, .netOpen 0, .netClose 0, .advance 3000, .timerFire 0,
        .netOpen 1]).exposedSend = some 0 ∧
    (run State.init [.effectRun p, .netOpen 0, .netClose 0, .advance 3000, .timerFire 0,
        .netOpen 1]).wsCurrent = some 0 ∧
    (run State.init [.effectRun p, .netOpen 0, .netClose 0, .advance 3000, .timerFire 0,
        .netOpen 1]).isReady = true ∧
    (run State.init [.effectRun p, .netOpen 0, .netClose 0, .advance 3000, .timerFire 0,
        .netOpen 1]).sockets =
      [{ url := deriveWsUrl p, readyState := .CLOSED, wiring := .effectSocket },
       { url := deriveWsUrl p, readyState := .OPEN, wiring := .reconnectWs }] ∧
    (run State.init [.effectRun p, .netOpen 0, .netClose 0]).exposedSend = some 0 ∧
    (run State.init [.effectRun p, .netOpen 0, .netClose 0]).sockets =
      [{ url := deriveWsUrl p, readyState := .CLOSED, wiring := .effectSocket }] := by
  simp [run, step, State.init, useEffectBody, newWebSocket, setReadyState, socketOnopen,
    socketOnclose, reconnectWsOnopen, setIsReady, render, reconnectCallback, effectCleanup,
    socketClose]

/-- Recording a handler run leaves the sockets alone. -/
@[simp] theorem record_sockets (r : HandlerRun) (s : State) :
    (record r s).sockets = s.sockets := by
  unfold record; split <;> rfl

/-- Recording a handler run leaves the timers alone. -/
@[simp] theorem record_timers (r : HandlerRun) (s : State) :
    (record r s).timers = s.timers := by
  unfold record; split <;> rfl

/-- Recording a handler run leaves the pending cleanup alone. -/
@[simp] theorem record_cleanup (r : HandlerRun) (s : State) :
    (record r s).cleanup = s.cleanup := by
  unfold record; split <;> rfl

/-- A frame changes neither the sockets nor the timers. -/
theorem step_netMessage_frame (s : State) (k : Nat) (parsed : Except JSError JSValue) :
    (step s (.netMessage k parsed)).sockets = s.sockets ∧
    (step s (.netMessage k parsed)).timers = s.timers ∧
    (step s (.netMessage k parsed)).cleanup = s.cleanup := by
  simp only [step]
  split
  · exact ⟨rfl, rfl, rfl⟩
  · split
    · split <;> simp
    · exact ⟨rfl, rfl, rfl⟩

/-- Frames that arrive one after another on the open socket of the effect
run the handler once each, in arrival order. -/
theorem frames_handled_in_order (frames : List (Except JSError JSValue)) :
    ∀ (s : State) (k : Nat) (sk : Socket), s.sockets[k]? = some sk →
      sk.readyState = .OPEN → sk.wiring = .effectSocket →
      run s (frames.map (Event.netMessage k)) =
        frames.foldl (fun st f => record (onmessage f) st) s := by
  induction frames with
  | nil => intro s k sk _ _ _; rfl
  | cons f fs ih =>
      intro s k sk hk hopen hw
      have hstep := step_netMessage_deliver s k sk f hk hopen hw
      have hk2 : (record (onmessage f) s).sockets[k]? = some sk := by
        rw [record_sockets]; exact hk
      simp only [List.map_cons, run, List.foldl_cons]
      rw [hstep]
      exact ih _ k sk hk2 hopen hw

/-- Before the mount, every event other than a run of the effect leaves the
provider unmounted. -/
theorem step_unmounted (s : State) (e : Event) (h : Unmounted s)
    (he : countEffectRuns [e] = 0) : Unmounted (step s e) := by
  obtain ⟨hs, ht, hc⟩ := h
  cases e with
  | effectRun p => simp [countEffectRuns] at he
  | effectCleanup => simp [Unmounted, step, effectCleanup, hc, hs, ht]
  | rerender => exact ⟨hs, ht, hc⟩
  | netOpen k => simp [Unmounted, step, hs, ht, hc]
  | netClose k => simp [Unmounted, step, hs, ht, hc]
  | netMessage k parsed => simp [Unmounted, step, hs, ht, hc]
  | advance ms => exact ⟨hs, ht, hc⟩
  | timerFire i => simp [Unmounted, step, hs, ht, hc]

/-- The run of the effect in an unmounted provider constructs its socket. -/
theorem step_effectRun_unmounted (s : State) (p : PageContext) (h : Unmounted s) :
    SingleMountShape (step s (.effectRun p)).sockets (step s (.effectRun p)).timers := by
  obtain ⟨hs, ht, hc⟩ := h
  refine ⟨{ url := deriveWsUrl p, readyState := .CONNECTING, wiring := .effectSocket }, rfl,
    Or.inl ?_⟩
  simp [step, hc, useEffectBody, newWebSocket, hs, ht]

/-- After the mount, every event other than a run of the effect keeps the
sockets and timers in one of the three shapes of a single mount. -/
theorem step_singleMount (s : State) (e : Event)
    (h : SingleMountShape s.sockets s.timers) (he : countEffectRuns [e] = 0) :
    SingleMountShape (step s e).sockets (step s e).timers := by
  obtain ⟨a, ha, h⟩ := h
  cases e with
  | effectRun p => simp [countEffectRuns] at he
  | rerender => exact ⟨a, ha, h⟩
  | advance ms => exact ⟨a, ha, h⟩
  | netMessage k parsed =>
      obtain ⟨h1, h2, _⟩ := step_netMessage_frame s k parsed
      rw [h1, h2]
      exact ⟨a, ha, h⟩
  | effectCleanup =>
      cases hcl : s.cleanup with
      | none =>
          have : step s .effectCleanup = s := by simp [step, effectCleanup, hcl]
          rw [this]
          exact ⟨a, ha, h⟩
      | some k =>
          rcases h with ⟨hs, hne, ht⟩ | ⟨hs, hc, t, ht⟩ | ⟨b, hs, hc, hb, ht⟩
          · rcases k with _ | k
            · by_cases hl : a.readyState = .CONNECTING ∨ a.readyState = .OPEN
              · refine ⟨{ a with readyState := .CLOSING }, ha, Or.inl ?_⟩
                simp [step, effectCleanup, hcl, socketClose, hs, hl, setReadyState, ht]
              · refine ⟨a, ha, Or.inl ?_⟩
                simp [step, effectCleanup, hcl, socketClose, hs, hl, ht, hne]
            · refine ⟨a, ha, Or.inl ?_⟩
              simp [step, effectCleanup, hcl, socketClose, hs, ht, hne]
          · refine ⟨a, ha, Or.inr (Or.inl ?_)⟩
            rcases k with _ | k <;>
              simp [step, effectCleanup, hcl, socketClose, hs, ht, hc]
          · rcases k with _ | _ | k
            · refine ⟨a, ha, Or.inr (Or.inr ⟨b, ?_⟩)⟩
              simp [step, effectCleanup, hcl, socketClose, hs, ht, hc, hb]
            · by_cases hl : b.readyState = .CONNECTING ∨ b.readyState = .OPEN
              · refine ⟨a, ha, Or.inr (Or.inr ⟨{ b with readyState := .CLOSING }, ?_⟩)⟩
                simp [step, effectCleanup, hcl, socketClose, hs, hl, setReadyState, ht, hc, hb]
              · refine ⟨a, ha, Or.inr (Or.inr ⟨b, ?_⟩)⟩
                simp [step, effectCleanup, hcl, socketClose, hs, hl, ht, hc, hb]
            · refine ⟨a, ha, Or.inr (Or.inr ⟨b, ?_⟩)⟩
              simp [step, effectCleanup, hcl, socketClose, hs, ht, hc, hb]
  | netOpen k =>
      rcases h with ⟨hs, hne, ht⟩ | ⟨hs, hc, t, ht⟩ | ⟨b, hs, hc, hb, ht⟩
      · rcases k with _ | k
        · by_cases hl : a.readyState = .CONNECTING
          · refine ⟨{ a with readyState := .OPEN }, ha, Or.inl ?_⟩
            simp [step, hs, hl, ha, setReadyState, socketOnopen, ht]
          · refine ⟨a, ha, Or.inl ?_⟩
            simp [step, hs, hl, ht, hne]
        · refine ⟨a, ha, Or.inl ?_⟩
          simp [step, hs, ht, hne]
      · refine ⟨a, ha, Or.inr (Or.inl ?_)⟩
        rcases k with _ | k <;> simp [step, hs, ht, hc]
      · rcases k with _ | _ | k
        · refine ⟨a, ha, Or.inr (Or.inr ⟨b, ?_⟩)⟩
          simp [step, hs, ht, hc, hb]
        · by_cases hl : b.readyState = .CONNECTING
          · refine ⟨a, ha, Or.inr (Or.inr ⟨{ b with readyState := .OPEN }, ?_⟩)⟩
            simp [step, hs, hl, hb, setReadyState, reconnectWsOnopen, ht, hc]
          · refine ⟨a, ha, Or.inr (Or.inr ⟨b, ?_⟩)⟩
            simp [step, hs, hl, ht, hc, hb]
        · refine ⟨a, ha, Or.inr (Or.inr ⟨b, ?_⟩)⟩
          simp [step, hs, ht, hc, hb]
  | netClose k =>
      rcases h with ⟨hs, hne, ht⟩ | ⟨hs, hc, t, ht⟩ | ⟨b, hs, hc, hb, ht⟩
      · rcases k with _ | k
        · refine ⟨{ a with readyState := .CLOSED }, ha, Or.inr (Or.inl ?_)⟩
          simp [step, hs, hne, ha, setReadyState, socketOnclose, ht]
        · refine ⟨a, ha, Or.inl ?_⟩
          simp [step, hs, ht, hne]
      · refine ⟨a, ha, Or.inr (Or.inl ?_)⟩
        rcases k with _ | k <;> simp [step, hs, ht, hc]
      · rcases k with _ | _ | k
        · refine ⟨a, ha, Or.inr (Or.inr ⟨b, ?_⟩)⟩
          simp [step, hs, ht, hc, hb]
        · by_cases hl : b.readyState = .CLOSED
          · refine ⟨a, ha, Or.inr (Or.inr ⟨b, ?_⟩)⟩
            simp [step, hs, hl, ht, hc, hb]
          · refine ⟨a, ha, Or.inr (Or.inr ⟨{ b with readyState := .CLOSED }, ?_⟩)⟩
            simp [step, hs, hl, hb, setReadyState, ht, hc]
        · refine ⟨a, ha, Or.inr (Or.inr ⟨b, ?_⟩)⟩
          simp [step, hs, ht, hc, hb]
  | timerFire i =>
      rcases h with ⟨hs, hne, ht⟩ | ⟨hs, hc, t, ht⟩ | ⟨b, hs, hc, hb, ht⟩
      · refine ⟨a, ha, Or.inl ?_⟩
        simp [step, hs, ht, hne]
      · rcases i with _ | i
        · by_cases hd : t.due ≤ s.now
          · refine ⟨a, ha, Or.inr (Or.inr
              ⟨{ url := t.wsUrl, readyState := .CONNECTING, wiring := .reconnectWs }, ?_⟩)⟩
            simp [step, hs, ht, hc, hd, reconnectCallback, newWebSocket]
          · refine ⟨a, ha, Or.inr (Or.inl ?_)⟩
            simp [step, hs, ht, hc, hd]
        · refine ⟨a, ha, Or.inr (Or.inl ?_)⟩
          simp [step, hs, ht, hc]
      · refine ⟨a, ha, Or.inr (Or.inr ⟨b, ?_⟩)⟩
        simp [step, hs, ht, hc, hb]

/-- Only a run of the effect and a timer construct a socket. -/
theorem step_sockets_length (s : State) (e : Event) (he : countEffectRuns [e] = 0)
    (ht : ∀ i, e ≠ .timerFire i) :
    (step s e).sockets.length = s.sockets.length := by
  cases e with
  | effectRun p => simp [countEffectRuns] at he
  | rerender => rfl
  | advance ms => rfl
  | netMessage k parsed => rw [(step_netMessage_frame s k parsed).1]
  | timerFire i => exact absurd rfl (ht i)
  | effectCleanup =>
      simp only [step, effectCleanup]
      split
      · rfl
      · simp only [socketClose]
        split
        · rfl
        · split <;> simp [setReadyState]
  | netOpen k =>
      simp only [step]
      split
      · rfl
      · split
        · split <;> simp [setReadyState, socketOnopen, reconnectWsOnopen]
        · rfl
  | netClose k =>
      simp only [step]
      split
      · rfl
      · split
        · rfl
        · split <;> simp [setReadyState, socketOnclose]

/-- The effect runs of a sequence extended by one event. -/
theorem countEffectRuns_append (evs : List Event) (e : Event) :
    countEffectRuns (evs ++ [e]) = countEffectRuns evs + countEffectRuns [e] := by
  induction evs with
  | nil => simp [countEffectRuns]
  | cons x xs ih =>
      cases x <;> simp [countEffectRuns, ih]
      omega

/-- Without a run of the effect the provider stays unmounted. -/
theorem run_unmounted (evs : List Event) :
    ∀ s : State, Unmounted s → countEffectRuns evs = 0 → Unmounted (run s evs) := by
  induction evs with
  | nil => intro s h _; exact h
  | cons e evs ih =>
      intro s h he
      have he1 : countEffectRuns [e] = 0 := by cases e <;> simp_all [countEffectRuns]
      have he2 : countEffectRuns evs = 0 := by cases e <;> simp_all [countEffectRuns]
      exact ih (step s e) (step_unmounted s e h he1) he2

/-- Without a further run of the effect a single mount keeps its shape. -/
theorem run_singleMount (evs : List Event) :
    ∀ s : State, SingleMountShape s.sockets s.timers → countEffectRuns evs = 0 →
      SingleMountShape (run s evs).sockets (run s evs).timers := by
  induction evs with
  | nil => intro s h _; exact h
  | cons e evs ih =>
      intro s h he
      have he1 : countEffectRuns [e] = 0 := by cases e <;> simp_all [countEffectRuns]
      have he2 : countEffectRuns evs = 0 := by cases e <;> simp_all [countEffectRuns]
      exact ih (step s e) (step_singleMount s e h he1) he2

/-- With at most one run of the effect the provider is unmounted or in the
shape of a single mount. -/
theorem run_at_most_one_mount (evs : List Event) :
    ∀ s : State, Unmounted s → countEffectRuns evs ≤ 1 →
      Unmounted (run s evs) ∨ SingleMountShape (run s evs).sockets (run s evs).timers := by
  induction evs with
  | nil => intro s h _; exact Or.inl h
  | cons e evs ih =>
      intro s h he
      by_cases he1 : countEffectRuns [e] = 0
      · have he2 : countEffectRuns evs ≤ 1 := by cases e <;> simp_all [countEffectRuns]
        exact ih (step s e) (step_unmounted s e h he1) he2
      · cases e with
        | effectRun p =>
            have he2 : countEffectRuns evs = 0 := by
              simp [countEffectRuns] at he; exact he
            exact Or.inr (run_singleMount evs _ (step_effectRun_unmounted s p h) he2)
        | _ => simp [countEffectRuns] at he1

/-- In the shape of a single mount at most one socket is connecting or open. -/
theorem liveCount_singleMount (s : State) (h : SingleMountShape s.sockets s.timers) :
    s.liveCount ≤ 1 := by
  obtain ⟨a, _, h⟩ := h
  rcases h with ⟨hs, _, _⟩ | ⟨hs, _, _⟩ | ⟨b, hs, hc, _, _⟩
  · simp only [State.liveCount, hs]
    exact List.length_filter_le _ _
  · simp only [State.liveCount, hs]
    exact List.length_filter_le _ _
  · have hl : a.live = false := by simp [Socket.live, hc]
    simp only [State.liveCount, hs]
    rw [List.filter_cons_of_neg (by simp [hl])]
    exact List.length_filter_le _ _

/-- C10 as stated fails. The provider mounts, is unmounted and mounts again:
the second socket is constructed while the first is still closing. And when
the first socket closes before the unmount, the timer of that closure
constructs a third socket while the one of the second mount is connecting:
two connections are live at once. -/
theorem remount_overlaps_connections :
    (run State.init [.effectRun ⟨"example.com:9191", "example.com", "https:", none⟩,
        .effectCleanup]).allClosed = false ∧
    (run State.init [.effectRun ⟨"example.com:9191", "example.com", "https:", none⟩,
        .effectCleanup]).sockets.length <
      (step (run State.init [.effectRun ⟨"example.com:9191", "example.com", "https:", none⟩,
        .effectCleanup])
        (.effectRun ⟨"example.com:9191", "example.com", "https:", none⟩)).sockets.length ∧
    (run State.init [.effectRun ⟨"example.com:9191", "example.com", "https:", none⟩,
        .netClose 0, .effectCleanup,
        .effectRun ⟨"example.com:9191", "example.com", "https:", none⟩,
        .advance 3000, .timerFire 0]).liveCount = 2 := by
  decide

/-- C10, amended. For every sequence of events in which the effect runs at
most once (a single mount of the provider), at most one socket is connecting
or open in the state reached, and an event that keeps to that bound
constructs a socket only when every socket constructed before is closed.
A prefix of such a sequence is such a sequence, so this holds at every
instant of it. -/
theorem single_mount_single_connection (evs : List Event)
    (h : countEffectRuns evs ≤ 1) :
    (run State.init evs).liveCount ≤ 1 ∧
    ∀ e : Event, countEffectRuns (evs ++ [e]) ≤ 1 →
      (run State.init evs).sockets.length < (step (run State.init evs) e).sockets.length →
      (run State.init evs).allClosed = true := by
  have hinit : Unmounted State.init := ⟨rfl, rfl, rfl⟩
  have hgood := run_at_most_one_mount evs State.init hinit h
  refine ⟨?_, ?_⟩
  · rcases hgood with hu | hm
    · simp [State.liveCount, hu.1]
    · exact liveCount_singleMount _ hm
  · intro e he hlt
    rw [countEffectRuns_append] at he
    by_cases he1 : countEffectRuns [e] = 0
    · by_cases ht : ∀ i, e ≠ .timerFire i
      · rw [step_sockets_length _ e he1 ht] at hlt
        exact absurd hlt (Nat.lt_irrefl _)
      · push_neg at ht
        obtain ⟨i, rfl⟩ := ht
        rcases hgood with hu | ⟨a, _, hm⟩
        · simp [State.allClosed, hu.1]
        · rcases hm with ⟨hs, _, htm⟩ | ⟨hs, hc, _, _⟩ | ⟨b, hs, _, _, htm⟩
          · simp [step, htm] at hlt
          · simp [State.allClosed, hs, hc]
          · simp [step, htm] at hlt
    · have h0 : countEffectRuns evs = 0 := by omega
      have hu := run_unmounted evs State.init hinit h0
      simp [State.allClosed, hu.1]

/-- One mount, the socket closes and the timer constructs the next socket,
through `single_mount_single_connection`. -/
theorem single_mount_single_connection_witness :
    (run State.init [.effectRun ⟨"example.com:9191", "example.com", "https:", none⟩,
        .netOpen 0, .netClose 0, .advance 3000]).liveCount ≤ 1 ∧
    (run State.init [.effectRun ⟨"example.com:9191", "example.com", "https:", none⟩,
        .netOpen 0, .netClose 0, .advance 3000]).allClosed = true :=
  ⟨(single_mount_single_connection
      [.effectRun ⟨"example.com:9191", "example.com", "https:", none⟩,
        .netOpen 0, .netClose 0, .advance 3000] (by decide)).1,
   (single_mount_single_connection
      [.effectRun ⟨"example.com:9191", "example.com", "https:", none⟩,
        .netOpen 0, .netClose 0, .advance 3000] (by decide)).2
      (.timerFire 0) (by decide) (by decide)⟩
end Dispatcharr
